import Mathlib

/-!
Verification of the workflow-orchestration spec against the two LangGraph
workflow labs (lab3 document workflow, lab4 compliance agent).

The node functions, routing functions, graph wiring and driver functions are
shallow embeddings of the Python sources in `src/Solutions/`.  Calls to the
LLM and to the JSON parser are external effects: they are modelled by oracle
records that supply, per node, the reply string (respectively the parse
result) that the external call would have produced, so every theorem
quantifies over all possible replies.

The executor itself (checkpointing, interrupts, resume) lives in the external
`langgraph` package, which is not part of the repository sources; it is
modelled from the spec (sections 3 and 4.2) as a fuel-indexed step loop over
an explicit checkpoint record.
-/

set_option maxHeartbeats 1000000

namespace Engine

/-- Modelled from the spec: run status flag of a checkpoint
(spec section 3, Run / Checkpoint). -/
inductive Status where
  | running
  | paused
  | completed
  | failed
deriving DecidableEq

/-- Modelled from the spec: the durable per-thread checkpoint record —
current state snapshot, cursor, status, sequence number — extended with the
execution trace (the list of step names executed so far) used by the
exactly-once property. -/
structure Checkpoint (σ : Type) where
  state : σ
  cursor : String
  status : Status
  seq : Nat
  trace : List String
deriving DecidableEq

/-- Modelled from the spec: a compiled graph — node registry (task units may
fail, returning none), merge function, edge table (static or conditional,
already resolved to a next-step lookup), and the interrupt (pause-before)
set. -/
structure Graph (σ υ : Type) where
  node : String → Option (σ → Option υ)
  merge : σ → υ → σ
  next : String → σ → Option String
  interrupts : List String

variable {σ υ : Type}

/-- Modelled from the spec: the Executor loop of section 4.2.  The Bool mode
is true when the cursor step itself must be entered now (used when a resume
authorizes executing the step held at an interrupt pause) and false when the
cursor step has already been applied and its outgoing edge must be resolved.
A failed edge resolution models RoutingError; a failed task unit models
StepExecutionError; reaching END completes the run; a next step in the
interrupt set pauses with the cursor on the not-yet-entered step. -/
def run (g : Graph σ υ) : Nat → Bool → Checkpoint σ → Checkpoint σ
  | 0, _, cp => cp
  | fuel + 1, true, cp =>
    match g.node cp.cursor with
    | none => { cp with status := .failed }
    | some task =>
      match task cp.state with
      | none => { cp with status := .failed }
      | some upd =>
        run g fuel false
          { state := g.merge cp.state upd, cursor := cp.cursor, status := .running,
            seq := cp.seq + 1, trace := cp.trace ++ [cp.cursor] }
  | fuel + 1, false, cp =>
    match g.next cp.cursor cp.state with
    | none => { cp with status := .failed }
    | some nxt =>
      if nxt = "END" then
        { cp with status := .completed }
      else if nxt ∈ g.interrupts then
        { cp with cursor := nxt, status := .paused }
      else
        run g fuel true { cp with cursor := nxt, status := .running }

/-- Modelled from the spec: starting a fresh run — a new checkpoint with the
caller-supplied initial state, cursor at START, status running, sequence 0,
empty trace. -/
def invoke (g : Graph σ υ) (fuel : Nat) (init : σ) : Checkpoint σ :=
  run g fuel false { state := init, cursor := "START", status := .running, seq := 0, trace := [] }

/-- Modelled from the spec: resuming a paused run past its interrupt — the
stored cursor step (not yet entered when the run paused) is now authorized to
execute, and no earlier step is re-entered. -/
def resume (g : Graph σ υ) (fuel : Nat) (cp : Checkpoint σ) : Checkpoint σ :=
  run g fuel true { cp with status := .running }

/-- Modelled from the spec: the run-level error kinds surfaced to the caller
(section 7); only the terminal-run rejection is needed here. -/
inductive EngineError where
  | runTerminal
deriving DecidableEq

/-- Modelled from the spec: invoking a thread against a checkpoint store —
no checkpoint starts a fresh run, a paused checkpoint resumes, and a
completed or failed checkpoint is rejected with RunTerminalError
(spec section 4.2, steps 1-3). -/
def invokeThread (g : Graph σ υ) (fuel : Nat) (store : String → Option (Checkpoint σ))
    (tid : String) (init : σ) : Except EngineError (Checkpoint σ) :=
  match store tid with
  | none => Except.ok (invoke g fuel init)
  | some cp =>
    match cp.status with
    | .completed => Except.error .runTerminal
    | .failed => Except.error .runTerminal
    | .paused => Except.ok (resume g fuel cp)
    | .running => Except.ok (run g fuel false cp)

end Engine

/-- Overwrite-merge of one optional field of a partial update into the
existing value: a present field replaces the old value, an absent field
leaves it unchanged. -/
def mergeOpt {α : Type} (new old : Option α) : Option α :=
  match new with
  | some v => some v
  | none => old

/-- Embedding of Python str.lower over the character list of a string (the
replies validated by the labs are ASCII category names). -/
def str_lower (s : String) : String := ⟨s.data.map Char.toLower⟩

/-- Embedding of Python str.strip: leading and trailing whitespace removed. -/
def str_strip (s : String) : String :=
  ⟨((s.data.dropWhile Char.isWhitespace).reverse.dropWhile Char.isWhitespace).reverse⟩

namespace Lab4

/-- Entity record shape requested from the model by extract_entities
(lab4_capstone_compliance_agent.py); the parse_error key is present exactly
in the fallback dict built on a JSON parse failure. -/
structure Entities where
  parties : List String := []
  dates : List String := []
  monetary_amounts : List String := []
  regulations_referenced : List String := []
  key_terms : List String := []
  contact_information : List String := []
  parse_error : Option String := none
deriving DecidableEq

/-- Risk flag dict: category, description, severity, location, each possibly
absent, matching the dict .get accesses in the source. -/
structure RiskFlag where
  category : Option String := none
  description : Option String := none
  severity : Option String := none
  location : Option String := none
deriving DecidableEq

/-- Parsed shape of the analyze_risks JSON reply; fields possibly absent,
read with .get defaults in the source. -/
structure RiskJson where
  risk_flags : Option (List RiskFlag) := none
  risk_score : Option Int := none
  risk_level : Option String := none
deriving DecidableEq

/-- Parsed shape of the generate_summary JSON reply. -/
structure SummaryJson where
  summary : Option String := none
  recommendations : Option (List String) := none
deriving DecidableEq

/-- ComplianceState of lab4_capstone_compliance_agent.py.  All fields are
present because analyze_document always supplies every key in the initial
state. -/
structure ComplianceState where
  document_text : String
  document_id : String
  document_type : String
  entities : Entities
  risk_flags : List RiskFlag
  risk_score : Int
  risk_level : String
  requires_human_review : Bool
  human_review_reason : String
  analysis_summary : String
  recommendations : List String
  timestamp : String
  processing_status : String
deriving DecidableEq

/-- Partial state update returned by a lab4 node: the dict a node returns,
with absent keys as none.  The two input fields are never written by any
node. -/
structure ComplianceUpdate where
  document_type : Option String := none
  entities : Option Entities := none
  risk_flags : Option (List RiskFlag) := none
  risk_score : Option Int := none
  risk_level : Option String := none
  requires_human_review : Option Bool := none
  human_review_reason : Option String := none
  analysis_summary : Option String := none
  recommendations : Option (List String) := none
  timestamp : Option String := none
  processing_status : Option String := none
deriving DecidableEq

/-- Merge of a node's partial update into ComplianceState: every field of
this state schema carries the default overwrite rule (no Annotated reducer is
declared), so a present key replaces the old value and an absent key leaves
it unchanged. -/
def mergeCompliance (s : ComplianceState) (u : ComplianceUpdate) : ComplianceState :=
  { document_text := s.document_text,
    document_id := s.document_id,
    document_type := u.document_type.getD s.document_type,
    entities := u.entities.getD s.entities,
    risk_flags := u.risk_flags.getD s.risk_flags,
    risk_score := u.risk_score.getD s.risk_score,
    risk_level := u.risk_level.getD s.risk_level,
    requires_human_review := u.requires_human_review.getD s.requires_human_review,
    human_review_reason := u.human_review_reason.getD s.human_review_reason,
    analysis_summary := u.analysis_summary.getD s.analysis_summary,
    recommendations := u.recommendations.getD s.recommendations,
    timestamp := u.timestamp.getD s.timestamp,
    processing_status := u.processing_status.getD s.processing_status }

/-- Oracle for the external effects of one lab4 run: the classification
reply string, the three JSON parse results (none models a reply that is not
valid JSON), and the timestamp datetime.now() would return.  Each node runs
at most once per run, so one entry per node suffices. -/
structure ComplianceOracle where
  classifyReply : String
  entitiesParsed : Option Entities
  risksParsed : Option RiskJson
  summaryParsed : Option SummaryJson
  now : String

/-- Valid document types accepted by classify_document (lab4). -/
def valid_types : List String := ["policy", "contract", "disclosure", "marketing", "other"]

/-- Embedding of lab4 classify_document: the LLM reply is stripped and
lowercased, validated against the closed category list with fallback
"other"; the node returns only document_type and processing_status. -/
def classify_document (reply : String) (_s : ComplianceState) : ComplianceUpdate :=
  let doc_type := str_lower (str_strip reply)
  let doc_type := if valid_types.contains doc_type then doc_type else "other"
  { document_type := some doc_type, processing_status := some "classified" }

/-- Fallback entities dict built by extract_entities when json.loads fails. -/
def fallback_entities : Entities :=
  { parties := [], dates := [], monetary_amounts := [], regulations_referenced := [],
    key_terms := [], contact_information := [],
    parse_error := some "Could not parse entity extraction response" }

/-- Embedding of lab4 extract_entities: the JSON parse result is used when
present, otherwise the fallback dict; the node returns only entities and
processing_status. -/
def extract_entities (parsed : Option Entities) (_s : ComplianceState) : ComplianceUpdate :=
  let entities :=
    match parsed with
    | some e => e
    | none => fallback_entities
  { entities := some entities, processing_status := some "entities_extracted" }

/-- Fallback risk analysis dict built by analyze_risks when json.loads
fails. -/
def fallback_risk_analysis : RiskJson :=
  { risk_flags := some [{ category := some "parse_error",
                          description := some "Could not analyze",
                          severity := some "medium" }],
    risk_score := some 50,
    risk_level := some "medium" }

/-- Embedding of lab4 analyze_risks: the parsed JSON (or the fallback dict)
is read with the source's .get defaults; the node returns risk_flags,
risk_score, risk_level and processing_status. -/
def analyze_risks (parsed : Option RiskJson) (_s : ComplianceState) : ComplianceUpdate :=
  let risk_analysis :=
    match parsed with
    | some r => r
    | none => fallback_risk_analysis
  { risk_flags := some (risk_analysis.risk_flags.getD []),
    risk_score := some (risk_analysis.risk_score.getD 50),
    risk_level := some (risk_analysis.risk_level.getD "medium"),
    processing_status := some "risks_analyzed" }

/-- Test used by determine_routing to collect critical flags: the severity
key, read with .get, is "critical" or "high". -/
def severity_is_high (f : RiskFlag) : Bool :=
  f.severity == some "critical" || f.severity == some "high"

/-- Embedding of lab4 determine_routing, following the source's sequential
updates of the (requires_review, review_reason) pair: a risk score of at
least 70, a critical or high severity flag, or a disclosure or contract
document with score at least 50, each set the flag and extend the reason
(joined with a semicolon when a reason is already present); r1, r2, r3 are
the pair's values after each of the three source checks, starting from
(False, ""). -/
def determine_routing (s : ComplianceState) : ComplianceUpdate :=
  let r1 : Bool × String :=
    if s.risk_score ≥ 70 then
      (true, "High risk score: " ++ toString s.risk_score)
    else (false, "")
  let critical_flags := s.risk_flags.filter severity_is_high
  let r2 : Bool × String :=
    if critical_flags ≠ [] then
      (true, (if r1.2 ≠ "" then r1.2 ++ "; " else r1.2)
             ++ toString critical_flags.length ++ " high/critical risk flags")
    else r1
  let r3 : Bool × String :=
    if s.document_type ∈ ["disclosure", "contract"] then
      if s.risk_score ≥ 50 then
        (true, (if r2.2 ≠ "" then r2.2 ++ "; " else r2.2)
               ++ s.document_type ++ " with elevated risk")
      else r2
    else r2
  { requires_human_review := some r3.1,
    human_review_reason := some (if r3.2 ≠ "" then r3.2 else "No review required"),
    processing_status := some "routing_determined" }

/-- Embedding of lab4 generate_summary: the parsed JSON reply (or, on a
parse failure, the fallback summary built from the current document_type and
risk_level with two fixed recommendations) is read with the source's .get
defaults; the timestamp is datetime.now(), supplied by the oracle. -/
def generate_summary (parsed : Option SummaryJson) (now : String) (s : ComplianceState) :
    ComplianceUpdate :=
  let output :=
    match parsed with
    | some j => j
    | none =>
      { summary := some ("Analysis complete for " ++ s.document_type
                         ++ " document. Risk level: " ++ s.risk_level ++ "."),
        recommendations := some ["Review document manually", "Consult compliance team"] }
  { analysis_summary := some (output.summary.getD ""),
    recommendations := some (output.recommendations.getD []),
    processing_status := some "complete",
    timestamp := some now }

/-- Embedding of lab4 human_review_checkpoint: the pause-point task unit,
whose only output is the awaiting_human_review status. -/
def human_review_checkpoint (_s : ComplianceState) : ComplianceUpdate :=
  { processing_status := some "awaiting_human_review" }

/-- Embedding of lab4 route_after_routing: human review when the flag is
set, otherwise straight to the summary. -/
def route_after_routing (s : ComplianceState) : String :=
  if s.requires_human_review then "human_review" else "generate_summary"

/-- Label-to-node mapping of the conditional edge declared after
determine_routing in build_compliance_graph. -/
def route_map : List (String × String) :=
  [("human_review", "human_review"), ("generate_summary", "generate_summary")]

/-- Embedding of build_compliance_graph: the six nodes, the static edges,
the conditional edge after determine_routing resolved through route_map, and
compilation with interrupt_before = [human_review]. -/
def build_compliance_graph (o : ComplianceOracle) :
    Engine.Graph ComplianceState ComplianceUpdate :=
  { node := fun name =>
      match name with
      | "classify" => some (fun s => some (classify_document o.classifyReply s))
      | "extract_entities" => some (fun s => some (extract_entities o.entitiesParsed s))
      | "analyze_risks" => some (fun s => some (analyze_risks o.risksParsed s))
      | "determine_routing" => some (fun s => some (determine_routing s))
      | "human_review" => some (fun s => some (human_review_checkpoint s))
      | "generate_summary" => some (fun s => some (generate_summary o.summaryParsed o.now s))
      | _ => none,
    merge := mergeCompliance,
    next := fun name s =>
      match name with
      | "START" => some "classify"
      | "classify" => some "extract_entities"
      | "extract_entities" => some "analyze_risks"
      | "analyze_risks" => some "determine_routing"
      | "determine_routing" => route_map.lookup (route_after_routing s)
      | "human_review" => some "generate_summary"
      | "generate_summary" => some "END"
      | _ => none,
    interrupts := ["human_review"] }

/-- Initial state built by analyze_document before invoking the graph. -/
def initial_state (document_text document_id : String) : ComplianceState :=
  { document_text := document_text,
    document_id := document_id,
    document_type := "",
    entities := {},
    risk_flags := [],
    risk_score := 0,
    risk_level := "",
    requires_human_review := false,
    human_review_reason := "",
    analysis_summary := "",
    recommendations := [],
    timestamp := "",
    processing_status := "started" }

/-- Run the compiled compliance graph once from a given state (the first
stream call of analyze_document); 20 fuel strictly exceeds the longest path
of the acyclic graph. -/
def invokeCompliance (o : ComplianceOracle) (s : ComplianceState) :
    Engine.Checkpoint ComplianceState :=
  Engine.invoke (build_compliance_graph o) 20 s

/-- Resume the compliance graph past the human_review interrupt (the
stream None call of analyze_document). -/
def resumeCompliance (o : ComplianceOracle) (cp : Engine.Checkpoint ComplianceState) :
    Engine.Checkpoint ComplianceState :=
  Engine.resume (build_compliance_graph o) 20 cp

/-- Embedding of the lab4 analyze_document driver.  The source streams the
graph and would auto-resume only upon observing a stream event whose
processing_status is awaiting_human_review; but the only node writing that
value is human_review_checkpoint, and the graph is compiled with an
interrupt before that very node, so the first stream pauses before it ever
runs and the guard can never fire.  The driver therefore performs no resume
and returns the paused checkpoint itself for a review-requiring
document. -/
def analyze_document (o : ComplianceOracle) (document_text document_id : String) :
    Engine.Checkpoint ComplianceState :=
  invokeCompliance o (initial_state document_text document_id)

/-- State after the classify step of a lab4 run. -/
def state1 (o : ComplianceOracle) (s0 : ComplianceState) : ComplianceState :=
  mergeCompliance s0 (classify_document o.classifyReply s0)

/-- State after the extract_entities step of a lab4 run. -/
def state2 (o : ComplianceOracle) (s0 : ComplianceState) : ComplianceState :=
  mergeCompliance (state1 o s0) (extract_entities o.entitiesParsed (state1 o s0))

/-- State after the analyze_risks step of a lab4 run. -/
def state3 (o : ComplianceOracle) (s0 : ComplianceState) : ComplianceState :=
  mergeCompliance (state2 o s0) (analyze_risks o.risksParsed (state2 o s0))

/-- State after the determine_routing step of a lab4 run: the state the
conditional edge inspects. -/
def state4 (o : ComplianceOracle) (s0 : ComplianceState) : ComplianceState :=
  mergeCompliance (state3 o s0) (determine_routing (state3 o s0))

/-- State after running generate_summary from a given state. -/
def stateSummary (o : ComplianceOracle) (s : ComplianceState) : ComplianceState :=
  mergeCompliance s (generate_summary o.summaryParsed o.now s)

/-- State after running human_review_checkpoint from a given state. -/
def stateReview (s : ComplianceState) : ComplianceState :=
  mergeCompliance s (human_review_checkpoint s)

/-- Review conditions of determine_routing, as a proposition over the input
state: risk score at least 70, or a critical or high severity flag, or a
disclosure or contract document with risk score at least 50. -/
def review_conditions (s : ComplianceState) : Prop :=
  s.risk_score ≥ 70 ∨
  (∃ f ∈ s.risk_flags, f.severity = some "critical" ∨ f.severity = some "high") ∨
  ((s.document_type = "disclosure" ∨ s.document_type = "contract") ∧ s.risk_score ≥ 50)

end Lab4

namespace Lab3

/-- Extracted-information value stored by extract_info: the dict with the
single raw key holding the model's reply. -/
structure ExtractedInfo where
  raw : String
deriving DecidableEq

/-- DocumentState of lab3_langgraph_document_workflow.py.  process_document
invokes the graph with only the document key, so every other field starts
absent (none models a missing dict key). -/
structure DocumentState where
  document : String
  doc_type : Option String := none
  extracted_info : Option ExtractedInfo := none
  summary : Option String := none
  urgency : Option String := none
  response : Option String := none
deriving DecidableEq

/-- Partial state update returned by a lab3 node, with absent keys as
none. -/
structure DocumentUpdate where
  document : Option String := none
  doc_type : Option String := none
  extracted_info : Option ExtractedInfo := none
  summary : Option String := none
  urgency : Option String := none
  response : Option String := none
deriving DecidableEq

/-- Merge of a node's partial update into DocumentState: every field of this
state schema carries the default overwrite rule (no Annotated reducer is
declared). -/
def mergeDocument (s : DocumentState) (u : DocumentUpdate) : DocumentState :=
  { document := u.document.getD s.document,
    doc_type := mergeOpt u.doc_type s.doc_type,
    extracted_info := mergeOpt u.extracted_info s.extracted_info,
    summary := mergeOpt u.summary s.summary,
    urgency := mergeOpt u.urgency s.urgency,
    response := mergeOpt u.response s.response }

/-- Oracle for the external LLM calls of one lab3 run: the reply each node's
invoke would return.  Each node runs at most once per run. -/
structure DocOracle where
  classifyReply : String
  extractReply : String
  urgencyReply : String
  summarizeReply : String
  urgentReply : String
  normalReply : String

/-- Embedding of lab3 classify_document: the reply is stripped and
lowercased and validated against the closed type list with fallback
"unknown"; the node returns only doc_type. -/
def classify_document (reply : String) (_s : DocumentState) : DocumentUpdate :=
  let doc_type := str_lower (str_strip reply)
  let doc_type := if ["email", "report", "memo"].contains doc_type then doc_type else "unknown"
  { doc_type := some doc_type }

/-- Embedding of lab3 extract_info: the direct doc_type dict access (used to
pick the extraction prompt) raises KeyError on a missing key, modelled as
task failure; otherwise the node stores the raw reply under
extracted_info. -/
def extract_info (reply : String) (s : DocumentState) : Option DocumentUpdate :=
  match s.doc_type with
  | none => none
  | some _ => some { extracted_info := some { raw := reply } }

/-- Embedding of lab3 determine_urgency: the reply is stripped and
lowercased and validated against the closed urgency list with fallback
"medium"; the node returns only urgency. -/
def determine_urgency (reply : String) (_s : DocumentState) : DocumentUpdate :=
  let urgency := str_lower (str_strip reply)
  let urgency := if ["high", "medium", "low"].contains urgency then urgency else "medium"
  { urgency := some urgency }

/-- Embedding of lab3 summarize_document: the direct doc_type access raises
KeyError on a missing key, modelled as task failure; otherwise the node
stores the reply as the summary. -/
def summarize_document (reply : String) (s : DocumentState) : Option DocumentUpdate :=
  match s.doc_type with
  | none => none
  | some _ => some { summary := some reply }

/-- Embedding of lab3 handle_urgent: the direct summary access raises
KeyError on a missing key, modelled as task failure; otherwise the node
returns the tagged urgent response. -/
def handle_urgent (reply : String) (s : DocumentState) : Option DocumentUpdate :=
  match s.summary with
  | none => none
  | some _ => some { response := some ("[URGENT HANDLING]\n" ++ reply) }

/-- Embedding of lab3 handle_normal: the direct summary and doc_type
accesses raise KeyError on a missing key, modelled as task failure;
otherwise the node returns the tagged standard response. -/
def handle_normal (reply : String) (s : DocumentState) : Option DocumentUpdate :=
  match s.summary, s.doc_type with
  | some _, some _ => some { response := some ("[STANDARD HANDLING]\n" ++ reply) }
  | _, _ => none

/-- Embedding of lab3 route_by_urgency: urgent exactly when the urgency
field (default medium) is high. -/
def route_by_urgency (s : DocumentState) : String :=
  let urgency := s.urgency.getD "medium"
  if urgency == "high" then "urgent" else "normal"

/-- Label-to-node mapping of the conditional edge declared after summarize
in build_document_workflow. -/
def urgency_map : List (String × String) :=
  [("urgent", "urgent"), ("normal", "normal")]

/-- Embedding of build_document_workflow: the six nodes, the static edges,
the conditional edge after summarize resolved through urgency_map, both
handlers to END, and compilation with a checkpointer but no interrupt
set. -/
def build_document_workflow (o : DocOracle) : Engine.Graph DocumentState DocumentUpdate :=
  { node := fun name =>
      match name with
      | "classify" => some (fun s => some (classify_document o.classifyReply s))
      | "extract" => some (fun s => extract_info o.extractReply s)
      | "urgency" => some (fun s => some (determine_urgency o.urgencyReply s))
      | "summarize" => some (fun s => summarize_document o.summarizeReply s)
      | "urgent" => some (fun s => handle_urgent o.urgentReply s)
      | "normal" => some (fun s => handle_normal o.normalReply s)
      | _ => none,
    merge := mergeDocument,
    next := fun name s =>
      match name with
      | "START" => some "classify"
      | "classify" => some "extract"
      | "extract" => some "urgency"
      | "urgency" => some "summarize"
      | "summarize" => urgency_map.lookup (route_by_urgency s)
      | "urgent" => some "END"
      | "normal" => some "END"
      | _ => none,
    interrupts := [] }

/-- Run of the compiled document workflow from the process_document input
state, which holds only the document key. -/
def invokeDocument (o : DocOracle) (document : String) : Engine.Checkpoint DocumentState :=
  Engine.invoke (build_document_workflow o) 20 { document := document }

/-- Embedding of lab3 process_document: every call builds a new graph with a
new in-process MemorySaver, so the checkpoint store consulted for the given
thread_id is always empty — a repeated call with the same thread_id starts
from no stored checkpoint. -/
def process_document (o : DocOracle) (document : String) (thread_id : String) :
    Except Engine.EngineError (Engine.Checkpoint DocumentState) :=
  Engine.invokeThread (build_document_workflow o) 20 (fun _ => none) thread_id
    { document := document }

/-- State after the classify step of a lab3 run. -/
def dstate1 (o : DocOracle) (d : String) : DocumentState :=
  mergeDocument { document := d } (classify_document o.classifyReply { document := d })

/-- State after the extract step of a lab3 run. -/
def dstate2 (o : DocOracle) (d : String) : DocumentState :=
  mergeDocument (dstate1 o d) ((extract_info o.extractReply (dstate1 o d)).getD {})

/-- State after the urgency step of a lab3 run. -/
def dstate3 (o : DocOracle) (d : String) : DocumentState :=
  mergeDocument (dstate2 o d) (determine_urgency o.urgencyReply (dstate2 o d))

/-- State after the summarize step of a lab3 run. -/
def dstate4 (o : DocOracle) (d : String) : DocumentState :=
  mergeDocument (dstate3 o d) ((summarize_document o.summarizeReply (dstate3 o d)).getD {})

/-- Final state of a lab3 run routed to the urgent handler. -/
def dstate5u (o : DocOracle) (d : String) : DocumentState :=
  mergeDocument (dstate4 o d) ((handle_urgent o.urgentReply (dstate4 o d)).getD {})

/-- Final state of a lab3 run routed to the normal handler. -/
def dstate5n (o : DocOracle) (d : String) : DocumentState :=
  mergeDocument (dstate4 o d) ((handle_normal o.normalReply (dstate4 o d)).getD {})

end Lab3

/-- Modelled from the spec: the per-field merge rule of the State Container
(spec section 3) — overwrite replaces the old value, append concatenates the
new contribution onto the existing sequence. -/
inductive MergeRule where
  | overwrite
  | append
deriving DecidableEq

/-- Modelled from the spec: merging one step's optional contribution to a
sequence-valued field under the field's declared rule; an omitted field
leaves the value unchanged. -/
def mergeField {α : Type} (rule : MergeRule) (old : List α) (update : Option (List α)) :
    List α :=
  match update with
  | none => old
  | some v =>
    match rule with
    | .overwrite => v
    | .append => old ++ v

/-- Concrete lab4 oracle used by the witnesses: a contract classification
with a failed risk-analysis JSON parse, which forces a human review
(contract with risk score 50). -/
def oc0 : Lab4.ComplianceOracle :=
  { classifyReply := "contract", entitiesParsed := none, risksParsed := none,
    summaryParsed := none, now := "2024-01-15T00:00:00" }

/-- Concrete lab4 oracle used by witnesses for the no-review path: a policy
document with a cleanly parsed risk analysis of score 10 and no flags, so no
review condition holds and the run completes without pausing. -/
def oc1 : Lab4.ComplianceOracle :=
  { classifyReply := "policy",
    entitiesParsed := some {},
    risksParsed := some { risk_flags := some [], risk_score := some 10,
                          risk_level := some "low" },
    summaryParsed := some { summary := some "clean policy document",
                            recommendations := some ["archive"] },
    now := "2024-01-15T00:00:00" }

/-- Concrete lab3 oracle used by the witnesses and the C7 counterexample: an
email of low urgency, so the run routes to the normal handler. -/
def od0 : Lab3.DocOracle :=
  { classifyReply := "email", extractReply := "raw facts", urgencyReply := "low",
    summarizeReply := "a short summary", urgentReply := "urgent reply",
    normalReply := "normal reply" }

/-- Concrete completed checkpoint used to witness the terminal-run rejection
of the spec-modelled engine. -/
def cpDone : Engine.Checkpoint Lab3.DocumentState :=
  { state := { document := "hello" }, cursor := "normal",
    status := Engine.Status.completed, seq := 5,
    trace := ["classify", "extract", "urgency", "summarize", "normal"] }

/-! Shared evaluation lemmas: symbolic runs of both compiled graphs for an
arbitrary oracle. -/

/-- Evaluation of one lab4 graph invocation: four steps always execute, then
the conditional edge pauses at human_review exactly when the routed state's
requires_human_review flag is set, and otherwise generate_summary completes
the run. -/
lemma invokeCompliance_eval (o : Lab4.ComplianceOracle) (s0 : Lab4.ComplianceState) :
    Lab4.invokeCompliance o s0 =
      if (Lab4.state4 o s0).requires_human_review then
        { state := Lab4.state4 o s0, cursor := "human_review",
          status := Engine.Status.paused, seq := 4,
          trace := ["classify", "extract_entities", "analyze_risks", "determine_routing"] }
      else
        { state := Lab4.stateSummary o (Lab4.state4 o s0), cursor := "generate_summary",
          status := Engine.Status.completed, seq := 5,
          trace := ["classify", "extract_entities", "analyze_risks", "determine_routing",
                    "generate_summary"] } := by
  by_cases hb : (Lab4.state4 o s0).requires_human_review
  · simp only [Lab4.invokeCompliance, Engine.invoke, Engine.run, Lab4.build_compliance_graph,
      Lab4.route_map, List.lookup, Lab4.state4, Lab4.state3, Lab4.state2, Lab4.state1,
      Lab4.stateSummary] at hb ⊢
    simp [Lab4.route_after_routing, hb]
  · simp only [Lab4.invokeCompliance, Engine.invoke, Engine.run, Lab4.build_compliance_graph,
      Lab4.route_map, List.lookup, Lab4.state4, Lab4.state3, Lab4.state2, Lab4.state1,
      Lab4.stateSummary] at hb ⊢
    simp [Lab4.route_after_routing, hb]

/-- Evaluation of a lab4 resume from a checkpoint paused at human_review:
exactly the two remaining steps execute and the run completes. -/
lemma resumeCompliance_eval (o : Lab4.ComplianceOracle)
    (cp : Engine.Checkpoint Lab4.ComplianceState) (hc : cp.cursor = "human_review") :
    Lab4.resumeCompliance o cp =
      { state := Lab4.stateSummary o (Lab4.stateReview cp.state), cursor := "generate_summary",
        status := Engine.Status.completed, seq := cp.seq + 2,
        trace := cp.trace ++ ["human_review", "generate_summary"] } := by
  simp only [Lab4.resumeCompliance, Engine.resume, Engine.run, Lab4.build_compliance_graph, hc,
    Lab4.stateSummary, Lab4.stateReview]
  simp

/-- Evaluation of one lab3 graph invocation: all four linear steps execute,
then the urgent handler runs exactly when the validated urgency reply is
high, and otherwise the normal handler runs; either way the run
completes. -/
lemma invokeDocument_eval (o : Lab3.DocOracle) (d : String) :
    Lab3.invokeDocument o d =
      if str_lower (str_strip o.urgencyReply) = "high" then
        { state := Lab3.dstate5u o d, cursor := "urgent", status := Engine.Status.completed,
          seq := 5, trace := ["classify", "extract", "urgency", "summarize", "urgent"] }
      else
        { state := Lab3.dstate5n o d, cursor := "normal", status := Engine.Status.completed,
          seq := 5, trace := ["classify", "extract", "urgency", "summarize", "normal"] } := by
  by_cases h1 : str_lower (str_strip o.urgencyReply) = "high"
  · simp [Lab3.invokeDocument, Engine.invoke, Engine.run, Lab3.build_document_workflow,
      Lab3.urgency_map, List.lookup, Lab3.route_by_urgency, Lab3.dstate5u, Lab3.dstate5n,
      Lab3.dstate4, Lab3.dstate3, Lab3.dstate2, Lab3.dstate1, Lab3.classify_document,
      Lab3.extract_info, Lab3.determine_urgency, Lab3.summarize_document, Lab3.handle_urgent,
      Lab3.handle_normal, Lab3.mergeDocument, mergeOpt, h1]
  · by_cases h2 : str_lower (str_strip o.urgencyReply) = "medium"
    · simp [Lab3.invokeDocument, Engine.invoke, Engine.run, Lab3.build_document_workflow,
        Lab3.urgency_map, List.lookup, Lab3.route_by_urgency, Lab3.dstate5u, Lab3.dstate5n,
        Lab3.dstate4, Lab3.dstate3, Lab3.dstate2, Lab3.dstate1, Lab3.classify_document,
        Lab3.extract_info, Lab3.determine_urgency, Lab3.summarize_document, Lab3.handle_urgent,
        Lab3.handle_normal, Lab3.mergeDocument, mergeOpt, h1, h2]
    · by_cases h3 : str_lower (str_strip o.urgencyReply) = "low"
      · simp [Lab3.invokeDocument, Engine.invoke, Engine.run, Lab3.build_document_workflow,
          Lab3.urgency_map, List.lookup, Lab3.route_by_urgency, Lab3.dstate5u, Lab3.dstate5n,
          Lab3.dstate4, Lab3.dstate3, Lab3.dstate2, Lab3.dstate1, Lab3.classify_document,
          Lab3.extract_info, Lab3.determine_urgency, Lab3.summarize_document, Lab3.handle_urgent,
          Lab3.handle_normal, Lab3.mergeDocument, mergeOpt, h1, h2, h3]
      · simp [Lab3.invokeDocument, Engine.invoke, Engine.run, Lab3.build_document_workflow,
          Lab3.urgency_map, List.lookup, Lab3.route_by_urgency, Lab3.dstate5u, Lab3.dstate5n,
          Lab3.dstate4, Lab3.dstate3, Lab3.dstate2, Lab3.dstate1, Lab3.classify_document,
          Lab3.extract_info, Lab3.determine_urgency, Lab3.summarize_document, Lab3.handle_urgent,
          Lab3.handle_normal, Lab3.mergeDocument, mergeOpt, h1, h2, h3]

/-- Processing status of the state at the conditional edge is always the one
determine_routing wrote. -/
lemma state4_processing (o : Lab4.ComplianceOracle) (s0 : Lab4.ComplianceState) :
    (Lab4.state4 o s0).processing_status = "routing_determined" := by
  simp [Lab4.state4, Lab4.mergeCompliance, Lab4.determine_routing]

/-! Claim theorems. -/

/-- C1: in every run of the compiled compliance graph whose state at the
conditional edge after determine_routing has requires_human_review = true,
execution pauses before the human_review step: status paused, cursor at
human_review, human_review absent from the executed trace, and the persisted
processing_status still routing_determined — not awaiting_human_review,
because human_review_checkpoint has not been invoked. -/
theorem c1_interrupt_gate (o : Lab4.ComplianceOracle) (s0 : Lab4.ComplianceState)
    (h : (Lab4.invokeCompliance o s0).state.requires_human_review = true) :
    (Lab4.invokeCompliance o s0).status = Engine.Status.paused ∧
    (Lab4.invokeCompliance o s0).cursor = "human_review" ∧
    "human_review" ∉ (Lab4.invokeCompliance o s0).trace ∧
    (Lab4.invokeCompliance o s0).state.processing_status = "routing_determined" ∧
    (Lab4.invokeCompliance o s0).state.processing_status ≠ "awaiting_human_review" := by
  rw [invokeCompliance_eval] at h ⊢
  by_cases hb : (Lab4.state4 o s0).requires_human_review
  · rw [if_pos hb]
    refine ⟨rfl, rfl, by simp, state4_processing o s0, ?_⟩
    rw [state4_processing o s0]
    decide
  · rw [if_neg hb] at h
    simp [Lab4.stateSummary, Lab4.mergeCompliance, Lab4.generate_summary] at h
    exact absurd h hb

/-- Witness for C1 at a concrete oracle: a contract classification with a
failed risk JSON parse forces review, and the run pauses. -/
theorem c1_interrupt_gate_witness :
    (Lab4.invokeCompliance oc0 (Lab4.initial_state "doc" "DEMO_001")).state.requires_human_review
        = true ∧
    (Lab4.invokeCompliance oc0 (Lab4.initial_state "doc" "DEMO_001")).status
        = Engine.Status.paused :=
  ⟨by decide, (c1_interrupt_gate oc0 (Lab4.initial_state "doc" "DEMO_001") (by decide)).1⟩

/-- C2: every completed run of either compiled graph executes each step of
its path exactly once — the execution trace is duplicate-free and equals the
declared path.  A lab3 run always completes in one pass with classify,
extract, urgency, summarize and exactly one of urgent or normal.  A lab4 run
of the compiled compliance graph completes either in one pass (no review
required, five steps) or after its interrupt pause through the engine
resume (six steps including human_review); either way each step appears
exactly once, regardless of the pause/resume cycle. -/
theorem c2_exactly_once :
    (∀ (o : Lab3.DocOracle) (d : String),
        (Lab3.invokeDocument o d).status = Engine.Status.completed ∧
        (Lab3.invokeDocument o d).trace.Nodup ∧
        ((Lab3.invokeDocument o d).trace = ["classify", "extract", "urgency", "summarize", "urgent"] ∨
         (Lab3.invokeDocument o d).trace = ["classify", "extract", "urgency", "summarize", "normal"])) ∧
    (∀ (o : Lab4.ComplianceOracle) (s0 : Lab4.ComplianceState),
        ((Lab4.invokeCompliance o s0).status = Engine.Status.completed →
          (Lab4.invokeCompliance o s0).trace.Nodup ∧
          (Lab4.invokeCompliance o s0).trace =
            ["classify", "extract_entities", "analyze_risks", "determine_routing",
             "generate_summary"]) ∧
        ((Lab4.invokeCompliance o s0).status = Engine.Status.paused →
          (Lab4.resumeCompliance o (Lab4.invokeCompliance o s0)).status
              = Engine.Status.completed ∧
          (Lab4.resumeCompliance o (Lab4.invokeCompliance o s0)).trace.Nodup ∧
          (Lab4.resumeCompliance o (Lab4.invokeCompliance o s0)).trace =
            ["classify", "extract_entities", "analyze_risks", "determine_routing",
             "human_review", "generate_summary"])) := by
  constructor
  · intro o d
    rw [invokeDocument_eval]
    by_cases hb : str_lower (str_strip o.urgencyReply) = "high"
    · rw [if_pos hb]
      exact ⟨rfl, by simp, Or.inl rfl⟩
    · rw [if_neg hb]
      exact ⟨rfl, by simp, Or.inr rfl⟩
  · intro o s0
    rw [invokeCompliance_eval]
    by_cases hb : (Lab4.state4 o s0).requires_human_review
    · rw [if_pos hb]
      constructor
      · intro h
        simp at h
      · intro _
        rw [resumeCompliance_eval o _ rfl]
        exact ⟨rfl, by simp, by simp⟩
    · rw [if_neg hb]
      constructor
      · intro _
        exact ⟨by simp, rfl⟩
      · intro h
        simp at h

/-- Witness for C2's lab4 conjunct at concrete oracles, discharging both
premises: oc1 completes without pausing with the five-step trace, and oc0
pauses and its resume completes with the six-step trace. -/
theorem c2_exactly_once_witness :
    ((Lab4.invokeCompliance oc1 (Lab4.initial_state "doc" "DEMO_001")).status
        = Engine.Status.completed ∧
      (Lab4.invokeCompliance oc1 (Lab4.initial_state "doc" "DEMO_001")).trace =
        ["classify", "extract_entities", "analyze_risks", "determine_routing",
         "generate_summary"]) ∧
    ((Lab4.invokeCompliance oc0 (Lab4.initial_state "doc" "DEMO_001")).status
        = Engine.Status.paused ∧
      (Lab4.resumeCompliance oc0
          (Lab4.invokeCompliance oc0 (Lab4.initial_state "doc" "DEMO_001"))).trace =
        ["classify", "extract_entities", "analyze_risks", "determine_routing",
         "human_review", "generate_summary"]) :=
  ⟨⟨by decide,
    ((c2_exactly_once.2 oc1 (Lab4.initial_state "doc" "DEMO_001")).1 (by decide)).2⟩,
   ⟨by decide,
    ((c2_exactly_once.2 oc0 (Lab4.initial_state "doc" "DEMO_001")).2 (by decide)).2.2⟩⟩

/-- C3: resuming a lab4 run paused at the human_review interrupt re-runs no
already-merged step — the trace extends only by human_review and
generate_summary — and every state field produced by classify,
extract_entities, analyze_risks and determine_routing is unchanged in the
completed final state. -/
theorem c3_resume_no_rerun (o : Lab4.ComplianceOracle) (d i : String)
    (h : (Lab4.invokeCompliance o (Lab4.initial_state d i)).status = Engine.Status.paused) :
    (Lab4.invokeCompliance o (Lab4.initial_state d i)).trace =
      ["classify", "extract_entities", "analyze_risks", "determine_routing"] ∧
    (Lab4.resumeCompliance o (Lab4.invokeCompliance o (Lab4.initial_state d i))).trace =
      (Lab4.invokeCompliance o (Lab4.initial_state d i)).trace
        ++ ["human_review", "generate_summary"] ∧
    (Lab4.resumeCompliance o (Lab4.invokeCompliance o (Lab4.initial_state d i))).status =
      Engine.Status.completed ∧
    (Lab4.resumeCompliance o (Lab4.invokeCompliance o (Lab4.initial_state d i))).state.document_type =
      (Lab4.invokeCompliance o (Lab4.initial_state d i)).state.document_type ∧
    (Lab4.resumeCompliance o (Lab4.invokeCompliance o (Lab4.initial_state d i))).state.entities =
      (Lab4.invokeCompliance o (Lab4.initial_state d i)).state.entities ∧
    (Lab4.resumeCompliance o (Lab4.invokeCompliance o (Lab4.initial_state d i))).state.risk_flags =
      (Lab4.invokeCompliance o (Lab4.initial_state d i)).state.risk_flags ∧
    (Lab4.resumeCompliance o (Lab4.invokeCompliance o (Lab4.initial_state d i))).state.risk_score =
      (Lab4.invokeCompliance o (Lab4.initial_state d i)).state.risk_score ∧
    (Lab4.resumeCompliance o (Lab4.invokeCompliance o (Lab4.initial_state d i))).state.risk_level =
      (Lab4.invokeCompliance o (Lab4.initial_state d i)).state.risk_level ∧
    (Lab4.resumeCompliance o (Lab4.invokeCompliance o (Lab4.initial_state d i))).state.requires_human_review =
      (Lab4.invokeCompliance o (Lab4.initial_state d i)).state.requires_human_review ∧
    (Lab4.resumeCompliance o (Lab4.invokeCompliance o (Lab4.initial_state d i))).state.human_review_reason =
      (Lab4.invokeCompliance o (Lab4.initial_state d i)).state.human_review_reason := by
  rw [invokeCompliance_eval] at h ⊢
  by_cases hb : (Lab4.state4 o (Lab4.initial_state d i)).requires_human_review
  · rw [if_pos hb]
    rw [resumeCompliance_eval o _ rfl]
    refine ⟨rfl, rfl, rfl, ?_, ?_, ?_, ?_, ?_, ?_, ?_⟩ <;>
      simp [Lab4.stateSummary, Lab4.stateReview, Lab4.mergeCompliance,
        Lab4.generate_summary, Lab4.human_review_checkpoint]
  · rw [if_neg hb] at h
    simp at h

/-- Witness for C3 at a concrete oracle forcing a pause. -/
theorem c3_resume_no_rerun_witness :
    (Lab4.invokeCompliance oc0 (Lab4.initial_state "doc" "DEMO_001")).status
        = Engine.Status.paused ∧
    (Lab4.invokeCompliance oc0 (Lab4.initial_state "doc" "DEMO_001")).trace =
      ["classify", "extract_entities", "analyze_risks", "determine_routing"] :=
  ⟨by decide, (c3_resume_no_rerun oc0 "doc" "DEMO_001" (by decide)).1⟩

/-- C4: every label a routing function can return is a key of its
conditional edge's label-to-node mapping, so the undeclared-label
(RoutingError) branch is unreachable: route_by_urgency always returns urgent
or normal and route_after_routing always returns human_review or
generate_summary, and each label looks up successfully in the declared
mapping. -/
theorem c4_routing_labels_mapped :
    (∀ s : Lab3.DocumentState,
        (Lab3.route_by_urgency s = "urgent" ∨ Lab3.route_by_urgency s = "normal") ∧
        (Lab3.urgency_map.lookup (Lab3.route_by_urgency s)).isSome = true) ∧
    (∀ s : Lab4.ComplianceState,
        (Lab4.route_after_routing s = "human_review" ∨
         Lab4.route_after_routing s = "generate_summary") ∧
        (Lab4.route_map.lookup (Lab4.route_after_routing s)).isSome = true) := by
  constructor
  · intro s
    unfold Lab3.route_by_urgency
    by_cases hb : s.urgency.getD "medium" == "high" <;>
      simp [hb, Lab3.urgency_map, List.lookup]
  · intro s
    unfold Lab4.route_after_routing
    by_cases hb : s.requires_human_review <;>
      simp [hb, Lab4.route_map, List.lookup]

/-- C5: state merging follows each field's declared rule — for an
append-rule field (modelled from the spec; neither lab graph declares one),
two sequential one-element contributions concatenate in order; for an
overwrite-rule field the last contributor wins; concretely in lab4 every
node writes processing_status, and a completed run of the compiled graph —
whether it completes in one pass or through the engine resume after the
interrupt pause — ends with processing_status equal to generate_summary's
value complete, the last executed node's write. -/
theorem c5_merge_rules :
    (∀ (α : Type) (a b : α),
        mergeField MergeRule.append (mergeField MergeRule.append [] (some [a])) (some [b])
          = [a] ++ [b]) ∧
    (∀ (α : Type) (old x y : List α),
        mergeField MergeRule.overwrite (mergeField MergeRule.overwrite old (some x)) (some y)
          = y) ∧
    (∀ (o : Lab4.ComplianceOracle) (s : Lab4.ComplianceState),
        (Lab4.classify_document o.classifyReply s).processing_status = some "classified" ∧
        (Lab4.extract_entities o.entitiesParsed s).processing_status = some "entities_extracted" ∧
        (Lab4.analyze_risks o.risksParsed s).processing_status = some "risks_analyzed" ∧
        (Lab4.determine_routing s).processing_status = some "routing_determined" ∧
        (Lab4.human_review_checkpoint s).processing_status = some "awaiting_human_review" ∧
        (Lab4.generate_summary o.summaryParsed o.now s).processing_status = some "complete") ∧
    (∀ (o : Lab4.ComplianceOracle) (s0 : Lab4.ComplianceState),
        ((Lab4.invokeCompliance o s0).status = Engine.Status.completed →
          (Lab4.invokeCompliance o s0).state.processing_status = "complete") ∧
        ((Lab4.invokeCompliance o s0).status = Engine.Status.paused →
          (Lab4.resumeCompliance o (Lab4.invokeCompliance o s0)).status
              = Engine.Status.completed ∧
          (Lab4.resumeCompliance o (Lab4.invokeCompliance o s0)).state.processing_status
              = "complete")) := by
  refine ⟨fun α a b => rfl, fun α old x y => rfl,
    fun o s => ⟨rfl, rfl, rfl, rfl, rfl, rfl⟩, fun o s0 => ?_⟩
  rw [invokeCompliance_eval]
  by_cases hb : (Lab4.state4 o s0).requires_human_review
  · rw [if_pos hb]
    constructor
    · intro h
      simp at h
    · intro _
      rw [resumeCompliance_eval o _ rfl]
      exact ⟨rfl, by simp [Lab4.stateSummary, Lab4.mergeCompliance, Lab4.generate_summary]⟩
  · rw [if_neg hb]
    constructor
    · intro _
      simp [Lab4.stateSummary, Lab4.mergeCompliance, Lab4.generate_summary]
    · intro h
      simp at h

/-- Witness for C5's last conjunct at concrete oracles, discharging both
premises: oc1 completes in one pass and oc0 completes through the resume,
both ending with processing_status complete. -/
theorem c5_merge_rules_witness :
    ((Lab4.invokeCompliance oc1 (Lab4.initial_state "doc" "DEMO_001")).status
        = Engine.Status.completed ∧
      (Lab4.invokeCompliance oc1 (Lab4.initial_state "doc" "DEMO_001")).state.processing_status
        = "complete") ∧
    ((Lab4.invokeCompliance oc0 (Lab4.initial_state "doc" "DEMO_001")).status
        = Engine.Status.paused ∧
      (Lab4.resumeCompliance oc0
          (Lab4.invokeCompliance oc0 (Lab4.initial_state "doc" "DEMO_001"))).state.processing_status
        = "complete") :=
  ⟨⟨by decide,
    (c5_merge_rules.2.2.2 oc1 (Lab4.initial_state "doc" "DEMO_001")).1 (by decide)⟩,
   ⟨by decide,
    ((c5_merge_rules.2.2.2 oc0 (Lab4.initial_state "doc" "DEMO_001")).2 (by decide)).2⟩⟩

/-- C6: a step's partial update may omit fields and the omitted fields
survive the merge unchanged: lab3 classify_document writes only doc_type,
lab4 classify_document writes only document_type and processing_status, and
merging either update leaves every other field of the state exactly as it
was. -/
theorem c6_partial_update_frame :
    (∀ (r : String) (s : Lab3.DocumentState),
        (Lab3.classify_document r s).document = none ∧
        (Lab3.classify_document r s).extracted_info = none ∧
        (Lab3.classify_document r s).summary = none ∧
        (Lab3.classify_document r s).urgency = none ∧
        (Lab3.classify_document r s).response = none ∧
        ((Lab3.classify_document r s).doc_type).isSome = true ∧
        (Lab3.mergeDocument s (Lab3.classify_document r s)).document = s.document ∧
        (Lab3.mergeDocument s (Lab3.classify_document r s)).extracted_info = s.extracted_info ∧
        (Lab3.mergeDocument s (Lab3.classify_document r s)).summary = s.summary ∧
        (Lab3.mergeDocument s (Lab3.classify_document r s)).urgency = s.urgency ∧
        (Lab3.mergeDocument s (Lab3.classify_document r s)).response = s.response) ∧
    (∀ (r : String) (s : Lab4.ComplianceState),
        (Lab4.classify_document r s).entities = none ∧
        (Lab4.classify_document r s).risk_flags = none ∧
        (Lab4.classify_document r s).risk_score = none ∧
        (Lab4.classify_document r s).risk_level = none ∧
        (Lab4.classify_document r s).requires_human_review = none ∧
        (Lab4.classify_document r s).human_review_reason = none ∧
        (Lab4.classify_document r s).analysis_summary = none ∧
        (Lab4.classify_document r s).recommendations = none ∧
        (Lab4.classify_document r s).timestamp = none ∧
        ((Lab4.classify_document r s).document_type).isSome = true ∧
        (Lab4.classify_document r s).processing_status = some "classified" ∧
        (Lab4.mergeCompliance s (Lab4.classify_document r s)).document_text = s.document_text ∧
        (Lab4.mergeCompliance s (Lab4.classify_document r s)).document_id = s.document_id ∧
        (Lab4.mergeCompliance s (Lab4.classify_document r s)).entities = s.entities ∧
        (Lab4.mergeCompliance s (Lab4.classify_document r s)).risk_flags = s.risk_flags ∧
        (Lab4.mergeCompliance s (Lab4.classify_document r s)).risk_score = s.risk_score ∧
        (Lab4.mergeCompliance s (Lab4.classify_document r s)).risk_level = s.risk_level ∧
        (Lab4.mergeCompliance s (Lab4.classify_document r s)).requires_human_review
          = s.requires_human_review ∧
        (Lab4.mergeCompliance s (Lab4.classify_document r s)).human_review_reason
          = s.human_review_reason ∧
        (Lab4.mergeCompliance s (Lab4.classify_document r s)).analysis_summary
          = s.analysis_summary ∧
        (Lab4.mergeCompliance s (Lab4.classify_document r s)).recommendations
          = s.recommendations ∧
        (Lab4.mergeCompliance s (Lab4.classify_document r s)).timestamp = s.timestamp) := by
  constructor
  · intro r s
    refine ⟨rfl, rfl, rfl, rfl, rfl, ?_, rfl, rfl, rfl, rfl, rfl⟩
    simp [Lab3.classify_document]
  · intro r s
    refine ⟨rfl, rfl, rfl, rfl, rfl, rfl, rfl, rfl, rfl, ?_, rfl,
      rfl, rfl, rfl, rfl, rfl, rfl, rfl, rfl, rfl, rfl, rfl⟩
    simp [Lab4.classify_document]

/-- C9: classification and urgency outputs always come from their closed
label sets whatever string the LLM returns: lab3 doc_type in email, report,
memo, unknown (fallback unknown); lab3 urgency in high, medium, low
(fallback medium); lab4 document_type in policy, contract, disclosure,
marketing, other (fallback other). -/
theorem c9_closed_label_sets :
    (∀ (r : String) (s : Lab3.DocumentState), ∃ t,
        (Lab3.classify_document r s).doc_type = some t ∧
        t ∈ ["email", "report", "memo", "unknown"]) ∧
    (∀ (r : String) (s : Lab3.DocumentState), ∃ u,
        (Lab3.determine_urgency r s).urgency = some u ∧ u ∈ ["high", "medium", "low"]) ∧
    (∀ (r : String) (s : Lab4.ComplianceState), ∃ t,
        (Lab4.classify_document r s).document_type = some t ∧
        t ∈ ["policy", "contract", "disclosure", "marketing", "other"]) := by
  refine ⟨fun r s => ?_, fun r s => ?_, fun r s => ?_⟩
  · by_cases hb : ["email", "report", "memo"].contains (str_lower (str_strip r))
    · simp only [List.elem_eq_mem, List.mem_cons, List.mem_singleton,
        List.not_mem_nil, or_false, Bool.decide_or, Bool.or_eq_true,
        decide_eq_true_eq] at hb
      rcases hb with h | h | h <;>
        exact ⟨str_lower (str_strip r), by simp [Lab3.classify_document, h], by simp [h]⟩
    · simp only [List.elem_eq_mem, List.mem_cons, List.mem_singleton,
        List.not_mem_nil, or_false, Bool.decide_or, Bool.or_eq_true,
        decide_eq_true_eq, not_or] at hb
      exact ⟨"unknown", by simp [Lab3.classify_document, hb.1, hb.2.1, hb.2.2], by simp⟩
  · by_cases hb : ["high", "medium", "low"].contains (str_lower (str_strip r))
    · simp only [List.elem_eq_mem, List.mem_cons, List.mem_singleton,
        List.not_mem_nil, or_false, Bool.decide_or, Bool.or_eq_true,
        decide_eq_true_eq] at hb
      rcases hb with h | h | h <;>
        exact ⟨str_lower (str_strip r), by simp [Lab3.determine_urgency, h], by simp [h]⟩
    · simp only [List.elem_eq_mem, List.mem_cons, List.mem_singleton,
        List.not_mem_nil, or_false, Bool.decide_or, Bool.or_eq_true,
        decide_eq_true_eq, not_or] at hb
      exact ⟨"medium", by simp [Lab3.determine_urgency, hb.1, hb.2.1, hb.2.2], by simp⟩
  · by_cases hb : Lab4.valid_types.contains (str_lower (str_strip r))
    · simp only [Lab4.valid_types, List.elem_eq_mem, List.mem_cons, List.mem_singleton,
        List.not_mem_nil, or_false, Bool.decide_or, Bool.or_eq_true,
        decide_eq_true_eq] at hb
      rcases hb with h | h | h | h | h <;>
        exact ⟨str_lower (str_strip r),
          by simp [Lab4.classify_document, Lab4.valid_types, h], by simp [h]⟩
    · simp only [Lab4.valid_types, List.elem_eq_mem, List.mem_cons, List.mem_singleton,
        List.not_mem_nil, or_false, Bool.decide_or, Bool.or_eq_true,
        decide_eq_true_eq, not_or] at hb
      exact ⟨"other",
        by simp [Lab4.classify_document, Lab4.valid_types, hb.1, hb.2.1, hb.2.2.1,
          hb.2.2.2.1, hb.2.2.2.2], by simp⟩

/-- C10: the lab4 JSON-consuming nodes never raise on a malformed reply
(a parse result of none): extract_entities falls back to empty entity lists
with a parse_error marker, analyze_risks to risk score 50, level medium and
one parse_error flag, generate_summary to a default summary with two fixed
recommendations — and each still advances processing_status normally. -/
theorem c10_json_fallbacks (s : Lab4.ComplianceState) (now : String) :
    Lab4.extract_entities none s =
      { entities := some Lab4.fallback_entities,
        processing_status := some "entities_extracted" } ∧
    Lab4.analyze_risks none s =
      { risk_flags := some [{ category := some "parse_error",
                              description := some "Could not analyze",
                              severity := some "medium" }],
        risk_score := some 50, risk_level := some "medium",
        processing_status := some "risks_analyzed" } ∧
    Lab4.generate_summary none now s =
      { analysis_summary := some ("Analysis complete for " ++ s.document_type
                                  ++ " document. Risk level: " ++ s.risk_level ++ "."),
        recommendations := some ["Review document manually", "Consult compliance team"],
        processing_status := some "complete", timestamp := some now } :=
  ⟨rfl, rfl, rfl⟩

/-- C7 counterexample: process_document builds a fresh graph and a fresh
empty in-process checkpoint store inside every call, so a second call with
the same thread id default is the very same stateless computation — it
returns ok with a fully re-executed completed run instead of the
RunTerminalError rejection the claim requires. -/
theorem c7_counterexample :
    Lab3.process_document od0 "hello" "default" =
      Except.ok
        { state :=
            { document := "hello", doc_type := some "email",
              extracted_info := some { raw := "raw facts" },
              summary := some "a short summary", urgency := some "low",
              response := some "[STANDARD HANDLING]\nnormal reply" },
          cursor := "normal", status := Engine.Status.completed, seq := 5,
          trace := ["classify", "extract", "urgency", "summarize", "normal"] } ∧
    Lab3.process_document od0 "hello" "default" ≠
      Except.error Engine.EngineError.runTerminal := by
  constructor
  · rfl
  · intro hcontra
    rw [show Lab3.process_document od0 "hello" "default" =
          Except.ok
            { state :=
                { document := "hello", doc_type := some "email",
                  extracted_info := some { raw := "raw facts" },
                  summary := some "a short summary", urgency := some "low",
                  response := some "[STANDARD HANDLING]\nnormal reply" },
              cursor := "normal", status := Engine.Status.completed, seq := 5,
              trace := ["classify", "extract", "urgency", "summarize", "normal"] }
        from rfl] at hcontra
    exact Except.noConfusion hcontra

/-- C7 amended: the spec-modelled engine does reject advancing a thread
whose stored checkpoint is completed or failed with RunTerminalError, but
process_document never consults a shared store — each call constructs a new
graph and a fresh empty MemorySaver, so any repeated call with the same
thread id silently starts a fresh run of the whole graph. -/
theorem c7_amended :
    (∀ (σ υ : Type) (g : Engine.Graph σ υ) (fuel : Nat)
        (store : String → Option (Engine.Checkpoint σ)) (tid : String) (init : σ)
        (cp : Engine.Checkpoint σ), store tid = some cp →
        (cp.status = Engine.Status.completed ∨ cp.status = Engine.Status.failed) →
        Engine.invokeThread g fuel store tid init =
          Except.error Engine.EngineError.runTerminal) ∧
    (∀ (o : Lab3.DocOracle) (document thread_id : String),
        Lab3.process_document o document thread_id =
          Except.ok (Lab3.invokeDocument o document)) := by
  constructor
  · intro σ υ g fuel store tid init cp hstore hterm
    rcases hterm with h | h <;> simp only [Engine.invokeThread, hstore, h]
  · intro o document thread_id
    rfl

/-- Witness for the amended C7 at concrete inputs: a store holding a
completed checkpoint is rejected, and process_document with the same thread
id still returns the ok of a fresh full run. -/
theorem c7_amended_witness :
    ((fun _ : String => some cpDone) "default" = some cpDone ∧
      (cpDone.status = Engine.Status.completed ∨ cpDone.status = Engine.Status.failed)) ∧
    Engine.invokeThread (Lab3.build_document_workflow od0) 20 (fun _ => some cpDone)
        "default" { document := "hello" } =
      Except.error Engine.EngineError.runTerminal ∧
    Lab3.process_document od0 "hello" "default" =
      Except.ok (Lab3.invokeDocument od0 "hello") :=
  ⟨⟨rfl, Or.inl rfl⟩,
   c7_amended.1 Lab3.DocumentState Lab3.DocumentUpdate (Lab3.build_document_workflow od0) 20
     (fun _ => some cpDone) "default" { document := "hello" } cpDone rfl (Or.inl rfl),
   c7_amended.2 od0 "hello" "default"⟩

/-- C8: determine_routing sets requires_human_review to true exactly when a
review condition holds — risk score at least 70, a flag of severity critical
or high, or a disclosure or contract document with score at least 50 — and
when none holds it sets the flag false with reason No review required. -/
theorem c8_routing_iff (s : Lab4.ComplianceState) :
    ((Lab4.determine_routing s).requires_human_review = some true ↔
      Lab4.review_conditions s) ∧
    (¬ Lab4.review_conditions s →
      (Lab4.determine_routing s).requires_human_review = some false ∧
      (Lab4.determine_routing s).human_review_reason = some "No review required") := by
  have hflags : (s.risk_flags.filter Lab4.severity_is_high ≠ []) ↔
      ∃ f ∈ s.risk_flags, f.severity = some "critical" ∨ f.severity = some "high" := by
    rw [Ne, List.filter_eq_nil_iff]
    push_neg
    simp [Lab4.severity_is_high]
  constructor
  · unfold Lab4.determine_routing Lab4.review_conditions
    simp only [Option.some.injEq]
    split_ifs <;> simp_all [← hflags]
  · intro hnc
    unfold Lab4.determine_routing
    unfold Lab4.review_conditions at hnc
    simp only [Option.some.injEq]
    split_ifs <;> simp_all [← hflags]

/-- Witness for C8 at the concrete initial state, which satisfies no review
condition: the flag comes out false with the no-review reason. -/
theorem c8_routing_iff_witness :
    ¬ Lab4.review_conditions (Lab4.initial_state "doc" "DEMO_001") ∧
    (Lab4.determine_routing (Lab4.initial_state "doc" "DEMO_001")).requires_human_review
      = some false ∧
    (Lab4.determine_routing (Lab4.initial_state "doc" "DEMO_001")).human_review_reason
      = some "No review required" := by
  have hnc : ¬ Lab4.review_conditions (Lab4.initial_state "doc" "DEMO_001") := by
    simp [Lab4.review_conditions, Lab4.initial_state]
  exact ⟨hnc, (c8_routing_iff (Lab4.initial_state "doc" "DEMO_001")).2 hnc⟩
